import Mathlib

/-!
Verification of `scripts/generate_bench_assets.py`.

The script is a linear export pipeline over two fixed in-memory tables:
a `FIRE_DATA` list of dataclass records and a `POPULATION_ROWS` list of
dicts.  We embed the Python fragments shallowly:

* Python values flowing through the population rows become `PyVal`
  (a rational number, a string, or `None`); numeric literals are exact
  rationals, idealising IEEE doubles.
* A Python dict becomes an association list `Row`; subscription that can
  raise `KeyError` and `%`-style formatting that can raise `TypeError`
  return `Except PyErr`.
* `f"{x:.Nf}"` becomes `formatFixed`, fixed-point rendering with
  round-half-to-even (Python's float formatting rule).
* Each file the script writes becomes a pure function producing the file's
  text (or `Except PyErr String` when formatting a `None` can raise).
-/

set_option maxRecDepth 100000

namespace BenchAssets

/-- Exceptions the embedded Python fragments can raise. -/
inductive PyErr where
  | keyError
  | typeError
  | valueError
  | zeroDivisionError
  deriving DecidableEq, Repr

/-- Python values stored in a population-row dict: floats (modelled as
exact rationals), strings, and `None`. -/
inductive PyVal where
  | num (q : ℚ)
  | str (s : String)
  | none
  deriving DecidableEq, Repr

instance {ε α : Type} [DecidableEq ε] [DecidableEq α] : DecidableEq (Except ε α) := fun x y =>
  match x, y with
  | .ok a, .ok b =>
    if h : a = b then isTrue (by rw [h]) else isFalse (fun hh => h (Except.ok.inj hh))
  | .error a, .error b =>
    if h : a = b then isTrue (by rw [h]) else isFalse (fun hh => h (Except.error.inj hh))
  | .ok _, .error _ => isFalse (fun hh => Except.noConfusion hh)
  | .error _, .ok _ => isFalse (fun hh => Except.noConfusion hh)

/-- A Python dict with string keys, as an insertion-ordered association list. -/
abbrev Row : Type := List (String × PyVal)

/-- The keys of a dict, in insertion order (`list(d.keys())`). -/
def rowKeys (r : Row) : List String := r.map Prod.fst

/-- Python truthiness for the values above: `0`, `""` and `None` are falsy. -/
def pyTruthy : PyVal → Bool
  | .num q => decide (q ≠ 0)
  | .str s => decide (s ≠ "")
  | .none => false

/-- Python `/` on these values: float division, `ZeroDivisionError` on a zero
denominator, `TypeError` when an operand is not a number. -/
def pyDiv : PyVal → PyVal → Except PyErr PyVal
  | .num a, .num b => if b = 0 then .error .zeroDivisionError else .ok (.num (a / b))
  | _, _ => .error .typeError

/-- Dict subscription `r[k]`: the first binding for `k`, or `KeyError`. -/
def getItem : Row → String → Except PyErr PyVal
  | [], _ => .error .keyError
  | (k', v) :: r, k => if k = k' then .ok v else getItem r k

/-- Dict assignment `r[k] = v`: overwrite in place when `k` is present,
append otherwise. -/
def setKey : Row → String → PyVal → Row
  | [], k, v => [(k, v)]
  | (k', v') :: r, k, v => if k = k' then (k, v) :: r else (k', v') :: setKey r k v

/-- Round a rational to the nearest integer, ties to even
(the rounding used by Python's fixed-point float formatting). -/
def roundHalfEven (x : ℚ) : ℤ :=
  let f : ℤ := ⌊x⌋
  let frac : ℚ := x - (f : ℚ)
  if frac < 1 / 2 then f
  else if 1 / 2 < frac then f + 1
  else if f % 2 = 0 then f else f + 1

/-- The format `f"{x:.df}"`: fixed-point decimal rendering with `d` digits after the
point, rounding half to even. -/
def formatFixed (x : ℚ) (d : Nat) : String :=
  let n : ℤ := roundHalfEven (x * (10 : ℚ) ^ d)
  let s : String := toString n.natAbs
  let s : String := if s.length < d + 1 then String.mk (List.replicate (d + 1 - s.length) '0') ++ s else s
  let intLen : Nat := s.length - d
  (if x < 0 then "-" else "") ++ s.take intLen ++ (if d = 0 then "" else "." ++ s.drop intLen)

/-- Applying the format spec `.df` to a `PyVal` (`format(v, ".df")`):
numbers render fixed-point, `None` raises `TypeError`, strings raise
`ValueError` (unknown format code `f` for `str`). -/
def pyFormat (v : PyVal) (d : Nat) : Except PyErr String :=
  match v with
  | .num q => .ok (formatFixed q d)
  | .str _ => .error .valueError
  | .none => .error .typeError

/-- The `FireResult` dataclass. -/
structure FireResult where
  model : String
  threads : Nat
  time_s : ℚ
  speedup : ℚ
  efficiency : ℚ
  files_per_sec : ℚ
  deriving DecidableEq, Repr

/-- The hardcoded `FIRE_DATA` table (ten rows). -/
def FIRE_DATA : List FireResult := [
  ⟨"Row", 1, 2.079, 1.00, 1.00, 248.2⟩,
  ⟨"Row", 2, 1.328, 1.57, 1.57 / 2, 388.4⟩,
  ⟨"Row", 3, 1.006, 2.07, 2.07 / 3, 513.2⟩,
  ⟨"Row", 4, 0.828, 2.51, 2.51 / 4, 622.9⟩,
  ⟨"Row", 8, 0.806, 2.58, 2.58 / 8, 640.5⟩,
  ⟨"Column", 1, 2.094, 1.00, 1.00, 246.4⟩,
  ⟨"Column", 2, 1.340, 1.56, 1.56 / 2, 385.0⟩,
  ⟨"Column", 3, 1.037, 2.02, 2.02 / 3, 497.4⟩,
  ⟨"Column", 4, 0.874, 2.40, 2.40 / 4, 590.6⟩,
  ⟨"Column", 8, 0.850, 2.46, 2.46 / 8, 606.8⟩]

/-- One literal dict of `POPULATION_ROWS`. -/
def popRow (op : String) (rs rp cs cp : ℚ) : Row :=
  [("operation", .str op), ("row_serial_us", .num rs), ("row_parallel_us", .num rp),
   ("column_serial_us", .num cs), ("column_parallel_us", .num cp)]

/-- The hardcoded `POPULATION_ROWS` table (seven rows). -/
def POPULATION_ROWS : List Row := [
  popRow "Sum" 1.992 163.750 0.534 36.592,
  popRow "Average" 0.925 32.592 0.400 37.267,
  popRow "Max" 0.900 23.267 0.408 16.825,
  popRow "Min" 0.917 15.167 0.442 16.333,
  popRow "Top-10" 11.175 29.684 9.825 31.675,
  popRow "Point Query" 28.775 46.159 0.133 0.200,
  popRow "Range (11y)" 37.558 22.092 0.592 0.308]

/-- Line 71 of the script:
`r["column_advantage_serial"] = (r["row_serial_us"] / r["column_serial_us"]) if r["column_serial_us"] else None`.
The conditional's test subscripts `column_serial_us` first, so a row
without that key raises `KeyError`; a falsy (zero) value selects `None`. -/
def addSerialAdv (r : Row) : Except PyErr Row :=
  match getItem r "column_serial_us" with
  | .error e => .error e
  | .ok cs =>
    if pyTruthy cs then
      match getItem r "row_serial_us" with
      | .error e => .error e
      | .ok rs =>
        match pyDiv rs cs with
        | .error e => .error e
        | .ok v => .ok (setKey r "column_advantage_serial" v)
    else .ok (setKey r "column_advantage_serial" PyVal.none)

/-- Lines 73-76 of the script:
`if r["column_parallel_us"]: r["column_advantage_parallel"] = (r["row_parallel_us"] / r["column_parallel_us"]) if r["row_parallel_us"] else None`
`else: r["column_advantage_parallel"] = None`. -/
def addParallelAdv (r : Row) : Except PyErr Row :=
  match getItem r "column_parallel_us" with
  | .error e => .error e
  | .ok cp =>
    if pyTruthy cp then
      match getItem r "row_parallel_us" with
      | .error e => .error e
      | .ok rp =>
        if pyTruthy rp then
          match pyDiv rp cp with
          | .error e => .error e
          | .ok v => .ok (setKey r "column_advantage_parallel" v)
        else .ok (setKey r "column_advantage_parallel" PyVal.none)
    else .ok (setKey r "column_advantage_parallel" PyVal.none)

/-- The loop body of `_add_derived_population_metrics` on one row. -/
def addDerivedRow (r : Row) : Except PyErr Row :=
  match addSerialAdv r with
  | .error e => .error e
  | .ok r1 => addParallelAdv r1

/-- The loop `_add_derived_population_metrics(rows)`: augment every row in order;
the first raised exception propagates. -/
def add_derived_population_metrics : List Row → Except PyErr (List Row)
  | [] => .ok []
  | r :: rs =>
    match addDerivedRow r with
    | .error e => .error e
    | .ok r' =>
      match add_derived_population_metrics rs with
      | .error e => .error e
      | .ok rs' => .ok (r' :: rs')

/-- The minimal quoting of `csv.writer`: a cell containing the delimiter, a quote
or a line break is wrapped in double quotes with inner quotes doubled. -/
def csvQuote (s : String) : String :=
  if s.any (fun c => c == ',' || c == '"' || c == '\n' || c == '\r') then
    "\"" ++ String.join (s.data.map (fun c => if c == '"' then "\"\"" else String.singleton c)) ++ "\""
  else s

/-- Join cells with a separator. -/
def joinCells (sep : String) : List String → String
  | [] => ""
  | [c] => c
  | c :: cs => c ++ sep ++ joinCells sep cs

/-- Records written by `csv.writer` end with CRLF; it terminates every record with CRLF (the file is opened with
`newline=""`, so the terminator reaches the file unchanged). -/
def crlfLines (ls : List String) : String := String.join (ls.map (fun l => l ++ "\r\n"))

/-- The Markdown files are written line by line with `"\n"` terminators. -/
def lfLines (ls : List String) : String := String.join (ls.map (fun l => l ++ "\n"))

/-- Stringification `str(obj)` for a cell handed to `csv.writer`: strings pass through
and `None` becomes the empty cell.  The script only ever passes strings here;
a raw number (never reached) is approximated by its integer rendering. -/
def pyCellStr : PyVal → String
  | .str s => s
  | .none => ""
  | .num q => formatFixed q 0

/-- Stringification `str(obj)` for a bare `f"{obj}"` interpolation: strings pass
through, `None` renders as `"None"`.  The script only interpolates the
`operation` string bare; a raw number (never reached) is approximated by its
integer rendering. -/
def pyFStr : PyVal → String
  | .str s => s
  | .none => "None"
  | .num q => formatFixed q 0

/-- The cell `f"{row[k]:.df}"`: subscript then format, either step can raise. -/
def fmtCell (r : Row) (k : String) (d : Nat) : Except PyErr String :=
  match getItem r k with
  | .error e => .error e
  | .ok v => pyFormat v d

/-- Evaluate a list of cell expressions left to right, propagating the first
raised exception (Python evaluates a list display's elements in order). -/
def seqCells : List (Except PyErr String) → Except PyErr (List String)
  | [] => .ok []
  | c :: cs =>
    match c with
    | .error e => .error e
    | .ok s =>
      match seqCells cs with
      | .error e => .error e
      | .ok ss => .ok (s :: ss)

/-- The header record of `fire_results.csv` (line 84). -/
def fireCsvHeaderLine : String :=
  joinCells "," (["model", "threads", "time_s", "speedup", "efficiency", "files_per_sec"].map csvQuote)

/-- One data record of `fire_results.csv` (line 86): times to 3 decimals,
speedup to 2, efficiency to 4, throughput to 1. -/
def fireCsvRow (r : FireResult) : String :=
  joinCells "," (([r.model, toString r.threads, formatFixed r.time_s 3, formatFixed r.speedup 2,
    formatFixed r.efficiency 4, formatFixed r.files_per_sec 1]).map csvQuote)

/-- The records of `fire_results.csv` for a fire table. -/
def fireCsvLines (tbl : List FireResult) : List String :=
  fireCsvHeaderLine :: tbl.map fireCsvRow

/-- The full text of `fire_results.csv`. -/
def fire_results_csv : String := crlfLines (fireCsvLines FIRE_DATA)

/-- The header record of `population_results.csv` (line 91). -/
def popCsvHeaderLine : String :=
  joinCells "," (["operation", "row_serial_us", "row_parallel_us", "column_serial_us",
    "column_parallel_us", "column_advantage_serial", "column_advantage_parallel"].map csvQuote)

/-- The cell expressions of one `population_results.csv` record
(lines 93-101), in evaluation order.  Note the asymmetry in the source:
`column_advantage_serial` is formatted unconditionally (a `None` raises
`TypeError`), while `column_advantage_parallel` is tested against `None`
first and rendered as `"-"` when absent. -/
def popCsvCells (r : Row) : List (Except PyErr String) :=
  [ (getItem r "operation").map pyCellStr,
    fmtCell r "row_serial_us" 3,
    fmtCell r "row_parallel_us" 3,
    fmtCell r "column_serial_us" 3,
    fmtCell r "column_parallel_us" 3,
    (fmtCell r "column_advantage_serial" 2).map (fun s => s ++ "x"),
    match getItem r "column_advantage_parallel" with
    | .error e => .error e
    | .ok v => if v = PyVal.none then .ok "-" else (pyFormat v 2).map (fun s => s ++ "x") ]

/-- One data record of `population_results.csv`. -/
def popCsvRow (r : Row) : Except PyErr String :=
  (seqCells (popCsvCells r)).map (fun cs => joinCells "," (cs.map csvQuote))

/-- The records of `population_results.csv` for an (already derived)
population table. -/
def popCsvLinesE (rows : List Row) : Except PyErr (List String) :=
  (seqCells (rows.map popCsvRow)).map (fun ls => popCsvHeaderLine :: ls)

/-- The records of `population_results.csv` for a raw population table
(derive the metrics, then export). -/
def popCsvFullLines (raw : List Row) : Except PyErr (List String) :=
  match add_derived_population_metrics raw with
  | .error e => .error e
  | .ok rows => popCsvLinesE rows

/-- The full text of `population_results.csv` for a raw population table. -/
def popCsvFull (raw : List Row) : Except PyErr String :=
  (popCsvFullLines raw).map crlfLines

/-- The full text of `population_results.csv` for the program's table. -/
def population_results_csv : Except PyErr String := popCsvFull POPULATION_ROWS

/-- Line 106: the fire Markdown column-header row. -/
def fireMdHeader : String := "| Model | Threads | Time (s) | Speedup | Efficiency | Files/sec |"

/-- Line 107: the fire Markdown alignment row (plain dashes, no colons). -/
def fireMdAlign : String := "|-------|---------|----------|---------|------------|-----------|"

/-- Line 109: one fire Markdown data row; speedup carries an `x` suffix and
efficiency is rendered as `value*100` to one decimal with a `%` suffix. -/
def fireMdRow (r : FireResult) : String :=
  "| " ++ r.model ++ " | " ++ toString r.threads ++ " | " ++ formatFixed r.time_s 3 ++ " | "
    ++ formatFixed r.speedup 2 ++ "x | " ++ formatFixed (r.efficiency * 100) 1 ++ "% | "
    ++ formatFixed r.files_per_sec 1 ++ " |"

/-- The lines of `fire_results.md` for a fire table. -/
def fireMdLines (tbl : List FireResult) : List String :=
  fireMdHeader :: fireMdAlign :: tbl.map fireMdRow

/-- The full text of `fire_results.md`. -/
def fire_results_md : String := lfLines (fireMdLines FIRE_DATA)

/-- Line 113: the population Markdown column-header row. -/
def popMdHeader : String :=
  "| Operation | Row Serial (µs) | Row Parallel (µs) | Column Serial (µs) | Column Parallel (µs) | Col Adv Serial | Col Adv Parallel |"

/-- Line 114: the population Markdown alignment row; every cell after the
first ends in a colon (right alignment for the numeric columns). -/
def popMdAlign : String :=
  "|-----------|----------------:|------------------:|------------------:|--------------------:|---------------:|-----------------:|"

/-- The cell expressions of one population Markdown row (line 117), in
evaluation order.  Both advantage ratios are formatted unconditionally with
an `x` suffix; a `None` in either raises `TypeError`. -/
def popMdCells (r : Row) : List (Except PyErr String) :=
  [ (getItem r "operation").map pyFStr,
    fmtCell r "row_serial_us" 3,
    fmtCell r "row_parallel_us" 3,
    fmtCell r "column_serial_us" 3,
    fmtCell r "column_parallel_us" 3,
    (fmtCell r "column_advantage_serial" 2).map (fun s => s ++ "x"),
    (fmtCell r "column_advantage_parallel" 2).map (fun s => s ++ "x") ]

/-- One population Markdown data row. -/
def popMdRow (r : Row) : Except PyErr String :=
  (seqCells (popMdCells r)).map (fun cs => "| " ++ joinCells " | " cs ++ " |")

/-- The lines of `population_results.md` for an (already derived)
population table. -/
def popMdLinesE (rows : List Row) : Except PyErr (List String) :=
  (seqCells (rows.map popMdRow)).map (fun ls => popMdHeader :: popMdAlign :: ls)

/-- The lines of `population_results.md` for a raw population table
(derive the metrics, then export). -/
def popMdFullLines (raw : List Row) : Except PyErr (List String) :=
  match add_derived_population_metrics raw with
  | .error e => .error e
  | .ok rows => popMdLinesE rows

/-- The full text of `population_results.md` for a raw population table. -/
def popMdFull (raw : List Row) : Except PyErr String :=
  (popMdFullLines raw).map lfLines

/-- The full text of `population_results.md` for the program's table. -/
def population_results_md : Except PyErr String := popMdFull POPULATION_ROWS

/-- The structured value handed to `json.dump` (lines 123-131). -/
inductive Json where
  | num (q : ℚ)
  | jstr (s : String)
  | null
  | arr (elems : List Json)
  | obj (fields : List (String × Json))

/-- Converting a population-row value for the JSON bundle. -/
def pyValToJson : PyVal → Json
  | .num q => .num q
  | .str s => .jstr s
  | .none => .null

/-- The dict `r.__dict__` of a `FireResult`, in dataclass field order. -/
def fireResultJson (r : FireResult) : Json :=
  .obj [("model", .jstr r.model), ("threads", .num r.threads), ("time_s", .num r.time_s),
    ("speedup", .num r.speedup), ("efficiency", .num r.efficiency),
    ("files_per_sec", .num r.files_per_sec)]

/-- A population dict as a JSON object, keys in insertion order. -/
def rowJson (r : Row) : Json :=
  .obj (r.map (fun kv => (kv.1, pyValToJson kv.2)))

/-- The `metadata` object of the bundle (lines 126-130). -/
def metadataJson : Json :=
  .obj [("fire_dataset", .obj [("files", .num 516), ("measurements", .num 1167525), ("sites", .num 1398)]),
    ("population_dataset", .obj [("countries", .num 266), ("years", .num 65)]),
    ("generated_with", .jstr "generate_bench_assets.py")]

/-- The value handed to `json.dump` for given tables. -/
def benchJsonFull (fire : List FireResult) (raw : List Row) : Except PyErr Json :=
  match add_derived_population_metrics raw with
  | .error e => .error e
  | .ok rows => .ok (.obj [("fire", .arr (fire.map fireResultJson)),
      ("population", .arr (rows.map rowJson)), ("metadata", metadataJson)])

/-- The value serialized into `benchmarks.json` for the program's tables. -/
def benchmarks_json : Except PyErr Json := benchJsonFull FIRE_DATA POPULATION_ROWS

/-- Field lookup in a JSON object. -/
def Json.lookupKey : Json → String → Option Json
  | .obj fields, k => fields.lookup k
  | _, _ => Option.none

/-- Length of a JSON array. -/
def Json.arrLen : Json → Option Nat
  | .arr elems => some elems.length
  | _ => Option.none

/-- The key list of a JSON object, in order. -/
def Json.keyList : Json → Option (List String)
  | .obj fields => some (fields.map Prod.fst)
  | _ => Option.none

/-- Whether every element of a JSON array satisfies a predicate. -/
def Json.arrAll : Json → (Json → Bool) → Bool
  | .arr elems, p => elems.all p
  | _, _ => false

/-- Line 31: `ARTIFACT_DIR = os.environ.get("BENCH_EXPORT_DIR", "bench_artifacts")`,
resolved once from the environment. -/
def ARTIFACT_DIR (env : String → Option String) : String :=
  (env "BENCH_EXPORT_DIR").getD "bench_artifacts"

/-- A path split into its directory components. -/
def pathComponents (p : String) : List String :=
  (p.splitOn "/").filter (fun c => c ≠ "")

/-- Line 33: `os.makedirs(path, exist_ok=True)` over a filesystem modelled as
the list of existing directories (component lists): every leading component
run of the path is created, and existing directories are not an error. -/
def makedirs (fs : List (List String)) (p : List String) : List (List String) :=
  fs ++ (List.range p.length).map (fun i => p.take (i + 1))

/-- Path joining `os.path.join(dir, name)` for the forms the script uses. -/
def osPathJoin (dir name : String) : String :=
  if dir = "" then name
  else if dir.endsWith "/" then dir ++ name
  else dir ++ "/" ++ name

/-- Everything the text-export part of the script produces, as a function of
the output directory and the two source tables: the five file paths and the
five file contents (lines 80-131).  `makedirs` has already run by this
point (line 33 precedes every export). -/
structure ExportArtifacts where
  fireCsvPath : String
  popCsvPath : String
  fireMdPath : String
  popMdPath : String
  jsonPath : String
  fireCsv : String
  popCsv : Except PyErr String
  fireMd : String
  popMd : Except PyErr String
  jsonBundle : Except PyErr Json

/-- The export pipeline as a pure function: derive the population metrics
once, then produce every artifact from the same tables. -/
def pipelineOutputs (dir : String) (fire : List FireResult) (rawRows : List Row) : ExportArtifacts :=
  { fireCsvPath := osPathJoin dir "fire_results.csv"
    popCsvPath := osPathJoin dir "population_results.csv"
    fireMdPath := osPathJoin dir "fire_results.md"
    popMdPath := osPathJoin dir "population_results.md"
    jsonPath := osPathJoin dir "benchmarks.json"
    fireCsv := crlfLines (fireCsvLines fire)
    popCsv := popCsvFull rawRows
    fireMd := lfLines (fireMdLines fire)
    popMd := popMdFull rawRows
    jsonBundle := benchJsonFull fire rawRows }

/-- A row whose `column_serial_us` is zero: the derived serial advantage
comes out as `None`. -/
def rowZeroColSerial : Row :=
  [("operation", PyVal.str "Zero"), ("row_serial_us", PyVal.num 1),
   ("row_parallel_us", PyVal.num 2), ("column_serial_us", PyVal.num 0),
   ("column_parallel_us", PyVal.num 4)]

/-- The row `rowZeroColSerial` after the derived-metrics computation. -/
def rowZeroColSerialD : Row :=
  rowZeroColSerial ++
    [("column_advantage_serial", PyVal.none), ("column_advantage_parallel", PyVal.num (2 / 4))]

/-- C2 (counterexample) : a population row that actually lacks the
`column_parallel_us` key makes the derived-metrics computation raise
`KeyError` (line 73 subscripts the key unconditionally), contradicting
"never raises an exception for such a row". -/
def rowNoParallelFields : Row :=
  [("operation", PyVal.str "Sum"), ("row_serial_us", PyVal.num 1.992),
   ("column_serial_us", PyVal.num 0.534)]

/-- A row whose `column_parallel_us` is zero. -/
def rowZeroColParallel : Row :=
  [("operation", PyVal.str "Z"), ("row_serial_us", PyVal.num 1),
   ("row_parallel_us", PyVal.num 2), ("column_serial_us", PyVal.num 2),
   ("column_parallel_us", PyVal.num 0)]

/-- The frame relation between a raw population row and its augmented
version: exactly the two advantage keys are appended, and every other
key's value is untouched. -/
def rowFrame (r r' : Row) : Prop :=
  rowKeys r' = rowKeys r ++ ["column_advantage_serial", "column_advantage_parallel"] ∧
  ∀ k, k ≠ "column_advantage_serial" → k ≠ "column_advantage_parallel" →
    getItem r' k = getItem r k

/-- A one-row raw population table for the frame witness. -/
def frameRow : Row := popRow "W" 1 2 3 4

/-- The row `frameRow` after the derived-metrics computation. -/
def frameRowD : Row :=
  frameRow ++ [("column_advantage_serial", PyVal.num (1 / 3)),
    ("column_advantage_parallel", PyVal.num (2 / 4))]

/-- An already-derived population row with the given advantage values. -/
def mkRowD (op : String) (rs rp cs cp : ℚ) (aS aP : PyVal) : Row :=
  [("operation", .str op), ("row_serial_us", .num rs), ("row_parallel_us", .num rp),
   ("column_serial_us", .num cs), ("column_parallel_us", .num cp),
   ("column_advantage_serial", aS), ("column_advantage_parallel", aP)]

/-- A raw population table whose single row has a zero `column_serial_us`,
so that its derived `column_advantage_serial` is the absent marker. -/
def tableZeroColSerial : List Row :=
  [[("operation", PyVal.str "Zero"), ("row_serial_us", PyVal.num 1),
    ("row_parallel_us", PyVal.num 1), ("column_serial_us", PyVal.num 0),
    ("column_parallel_us", PyVal.num 1)]]

/-- The seven keys every serialized population entry carries: the five raw
fields plus the two derived ratios. -/
def popAllKeys : List String :=
  ["operation", "row_serial_us", "row_parallel_us", "column_serial_us",
   "column_parallel_us", "column_advantage_serial", "column_advantage_parallel"]

/-- An environment that overrides the export directory with a nested path
none of whose components exist yet. -/
def nestedEnv : String → Option String :=
  fun k => if k = "BENCH_EXPORT_DIR" then some "a/b/c" else Option.none

theorem getItem_setKey_self (r : Row) (k : String) (v : PyVal) :
    getItem (setKey r k v) k = .ok v := by
  induction r with
  | nil => simp [setKey, getItem]
  | cons hd tl ih =>
    obtain ⟨k', v'⟩ := hd
    by_cases h : k = k'
    · simp [setKey, getItem, h]
    · simp [setKey, getItem, h, ih]

theorem getItem_setKey_ne (r : Row) (k k2 : String) (v : PyVal) (h : k ≠ k2) :
    getItem (setKey r k2 v) k = getItem r k := by
  induction r with
  | nil => simp [setKey, getItem, h]
  | cons hd tl ih =>
    obtain ⟨k', v'⟩ := hd
    by_cases h2 : k2 = k'
    · subst h2
      simp [setKey, getItem, h]
    · by_cases h3 : k = k'
      · simp [setKey, getItem, h2, h3]
      · simp [setKey, getItem, h2, h3, ih]

theorem setKey_not_mem (r : Row) (k : String) (v : PyVal) (h : k ∉ rowKeys r) :
    setKey r k v = r ++ [(k, v)] := by
  induction r with
  | nil => simp [setKey]
  | cons hd tl ih =>
    obtain ⟨k', v'⟩ := hd
    simp only [rowKeys, List.map_cons, List.mem_cons] at h
    push_neg at h
    simp [setKey, h.1, ih (by simpa [rowKeys] using h.2)]

theorem rowKeys_append (r1 r2 : Row) : rowKeys (r1 ++ r2) = rowKeys r1 ++ rowKeys r2 := by
  simp [rowKeys]

/-- A successful `addSerialAdv` only sets the `column_advantage_serial` key. -/
theorem addSerialAdv_shape (r r' : Row) (h : addSerialAdv r = .ok r') :
    ∃ v, r' = setKey r "column_advantage_serial" v := by
  unfold addSerialAdv at h
  cases hcs : getItem r "column_serial_us" with
  | error e => simp [hcs] at h
  | ok cs =>
    by_cases ht : pyTruthy cs
    · cases hrs : getItem r "row_serial_us" with
      | error e => simp [hcs, ht, hrs] at h
      | ok rs =>
        cases hd : pyDiv rs cs with
        | error e => simp [hcs, ht, hrs, hd] at h
        | ok v =>
          simp only [hcs, ht, hrs, hd, if_true] at h
          exact ⟨v, (Except.ok.injEq _ _ ▸ h).symm⟩
    · simp only [hcs, ht, if_false, Bool.false_eq_true] at h
      exact ⟨PyVal.none, (Except.ok.injEq _ _ ▸ h).symm⟩

/-- A successful `addParallelAdv` only sets the `column_advantage_parallel` key. -/
theorem addParallelAdv_shape (r r' : Row) (h : addParallelAdv r = .ok r') :
    ∃ v, r' = setKey r "column_advantage_parallel" v := by
  unfold addParallelAdv at h
  cases hcp : getItem r "column_parallel_us" with
  | error e => simp [hcp] at h
  | ok cp =>
    by_cases ht : pyTruthy cp
    · cases hrp : getItem r "row_parallel_us" with
      | error e => simp [hcp, ht, hrp] at h
      | ok rp =>
        by_cases ht2 : pyTruthy rp
        · cases hd : pyDiv rp cp with
          | error e => simp [hcp, ht, hrp, ht2, hd] at h
          | ok v =>
            simp only [hcp, ht, hrp, ht2, hd, if_true] at h
            exact ⟨v, (Except.ok.injEq _ _ ▸ h).symm⟩
        · simp only [hcp, ht, hrp, ht2, if_false, Bool.false_eq_true, if_true] at h
          exact ⟨PyVal.none, (Except.ok.injEq _ _ ▸ h).symm⟩
    · simp only [hcp, ht, if_false, Bool.false_eq_true] at h
      exact ⟨PyVal.none, (Except.ok.injEq _ _ ▸ h).symm⟩

/-- With numeric serial fields, `addSerialAdv` computes exactly the guarded
ratio of line 71. -/
theorem addSerialAdv_num (r : Row) (rs cs : ℚ)
    (h1 : getItem r "row_serial_us" = .ok (.num rs))
    (h2 : getItem r "column_serial_us" = .ok (.num cs)) :
    addSerialAdv r =
      .ok (setKey r "column_advantage_serial" (if cs = 0 then PyVal.none else .num (rs / cs))) := by
  unfold addSerialAdv
  rw [h2]
  by_cases hz : cs = 0
  · simp [pyTruthy, hz]
  · simp [pyTruthy, hz, h1, pyDiv]

/-- When `column_parallel_us` is falsy, or it is truthy but `row_parallel_us`
is present and falsy, `addParallelAdv` runs to completion and stores `None`:
no exception is raised. -/
theorem addParallelAdv_none_run (r : Row) (cp : PyVal)
    (hcp : getItem r "column_parallel_us" = .ok cp)
    (h : pyTruthy cp = false ∨ ∃ rp, getItem r "row_parallel_us" = .ok rp ∧ pyTruthy rp = false) :
    addParallelAdv r = .ok (setKey r "column_advantage_parallel" PyVal.none) := by
  unfold addParallelAdv
  by_cases hcpt : pyTruthy cp
  · rcases h with hfalsy | ⟨rp, hrp, hfalsy⟩
    · rw [hcpt] at hfalsy; exact absurd hfalsy (by simp)
    · simp only [hcp, hcpt, hrp, hfalsy, if_true, Bool.false_eq_true, if_false]
  · simp only [hcp, hcpt, if_false, Bool.false_eq_true]

/-- C1 : For every population row, after the derived-metrics computation
runs, if `column_serial_us` is nonzero then `column_advantage_serial` equals
`row_serial_us / column_serial_us`, and if `column_serial_us` is zero then
`column_advantage_serial` is the explicit absent marker `None` — a stored
value, not a number and not an error. -/
theorem spec_c1_serial_advantage (r r' : Row) (rs cs : ℚ)
    (h1 : getItem r "row_serial_us" = .ok (.num rs))
    (h2 : getItem r "column_serial_us" = .ok (.num cs))
    (h3 : addDerivedRow r = .ok r') :
    (cs ≠ 0 → getItem r' "column_advantage_serial" = .ok (.num (rs / cs))) ∧
    (cs = 0 → getItem r' "column_advantage_serial" = .ok PyVal.none) := by
  unfold addDerivedRow at h3
  simp only [addSerialAdv_num r rs cs h1 h2] at h3
  obtain ⟨v2, hv2⟩ := addParallelAdv_shape _ r' h3
  subst hv2
  have hne : "column_advantage_serial" ≠ "column_advantage_parallel" := by decide
  rw [getItem_setKey_ne _ _ _ _ hne, getItem_setKey_self]
  constructor
  · intro h; simp [h]
  · intro h; simp [h]

/-- Witness for `spec_c1_serial_advantage` at a concrete row with a zero
`column_serial_us`. -/
theorem spec_c1_serial_advantage_witness :
    getItem rowZeroColSerialD "column_advantage_serial" = .ok PyVal.none :=
  (spec_c1_serial_advantage rowZeroColSerial rowZeroColSerialD 1 0
    (by with_unfolding_all decide) (by with_unfolding_all decide)
    (by with_unfolding_all decide)).2 rfl

/-- C2 fails as stated: on a row without the parallel keys the computation
raises `KeyError` instead of storing the absent marker. -/
theorem spec_c2_counterexample :
    addDerivedRow rowNoParallelFields = .error PyErr.keyError := by
  with_unfolding_all decide

/-- C2 (amended) : for every population row that carries numeric serial
fields and carries `column_parallel_us` with a falsy value (`0` or `None`) —
and likewise when `column_parallel_us` is truthy but `row_parallel_us` is
present and falsy — the derived-metrics computation runs to completion
(raises no exception) and stores the absent marker `None` in
`column_advantage_parallel`, never a numeric value; only a row actually
missing a needed parallel key raises `KeyError`. -/
theorem spec_c2_parallel_none (r : Row) (rs cs : ℚ) (cp : PyVal)
    (h1 : getItem r "row_serial_us" = .ok (.num rs))
    (h2 : getItem r "column_serial_us" = .ok (.num cs))
    (hcp : getItem r "column_parallel_us" = .ok cp)
    (h : pyTruthy cp = false ∨ ∃ rp, getItem r "row_parallel_us" = .ok rp ∧ pyTruthy rp = false) :
    ∃ r', addDerivedRow r = .ok r' ∧
      getItem r' "column_advantage_parallel" = .ok PyVal.none := by
  have hs := addSerialAdv_num r rs cs h1 h2
  set r1 : Row := setKey r "column_advantage_serial"
    (if cs = 0 then PyVal.none else PyVal.num (rs / cs)) with hr1
  have hne : "column_parallel_us" ≠ "column_advantage_serial" := by decide
  have hne2 : "row_parallel_us" ≠ "column_advantage_serial" := by decide
  have hcp1 : getItem r1 "column_parallel_us" = .ok cp := by
    rw [hr1, getItem_setKey_ne _ _ _ _ hne]; exact hcp
  have hlift : pyTruthy cp = false ∨
      ∃ rp, getItem r1 "row_parallel_us" = .ok rp ∧ pyTruthy rp = false := by
    rcases h with hf | ⟨rp, hrp, hf⟩
    · exact Or.inl hf
    · exact Or.inr ⟨rp, by rw [hr1, getItem_setKey_ne _ _ _ _ hne2]; exact hrp, hf⟩
  have hp := addParallelAdv_none_run r1 cp hcp1 hlift
  refine ⟨setKey r1 "column_advantage_parallel" PyVal.none, ?_, getItem_setKey_self _ _ _⟩
  unfold addDerivedRow
  simp only [hs, hp]

/-- Witness for `spec_c2_parallel_none` at a concrete row with a zero
`column_parallel_us`: the computation succeeds and stores `None`. -/
theorem spec_c2_parallel_none_witness :
    ∃ r', addDerivedRow rowZeroColParallel = .ok r' ∧
      getItem r' "column_advantage_parallel" = .ok PyVal.none :=
  spec_c2_parallel_none rowZeroColParallel 1 2 (PyVal.num 0)
    (by with_unfolding_all decide) (by with_unfolding_all decide)
    (by with_unfolding_all decide) (Or.inl (by with_unfolding_all decide))

/-- One loop iteration of `_add_derived_population_metrics` only appends the
two advantage keys. -/
theorem addDerivedRow_frame (r r' : Row)
    (hk1 : "column_advantage_serial" ∉ rowKeys r)
    (hk2 : "column_advantage_parallel" ∉ rowKeys r)
    (hrun : addDerivedRow r = .ok r') : rowFrame r r' := by
  unfold addDerivedRow at hrun
  cases hs : addSerialAdv r with
  | error e => simp [hs] at hrun
  | ok r1 =>
    simp only [hs] at hrun
    obtain ⟨vS, hv⟩ := addSerialAdv_shape r r1 hs
    subst hv
    obtain ⟨vP, hv2⟩ := addParallelAdv_shape _ r' hrun
    subst hv2
    have e1 : setKey r "column_advantage_serial" vS = r ++ [("column_advantage_serial", vS)] :=
      setKey_not_mem _ _ _ hk1
    have hk2' : "column_advantage_parallel" ∉ rowKeys (setKey r "column_advantage_serial" vS) := by
      rw [e1, rowKeys_append]
      simp only [List.mem_append, rowKeys, List.map_cons, List.map_nil, List.mem_singleton]
      push_neg
      exact ⟨hk2, by decide⟩
    have e2 : setKey (setKey r "column_advantage_serial" vS) "column_advantage_parallel" vP
        = (setKey r "column_advantage_serial" vS) ++ [("column_advantage_parallel", vP)] :=
      setKey_not_mem _ _ _ hk2'
    constructor
    · rw [e2, rowKeys_append, e1, rowKeys_append]
      simp [rowKeys]
    · intro k hne1 hne2
      rw [getItem_setKey_ne _ _ _ _ hne2, getItem_setKey_ne _ _ _ _ hne1]

/-- C10 : `_add_derived_population_metrics` preserves row count and order,
leaves `operation` and the four raw timing fields (indeed every pre-existing
field) of every row unchanged, and appends exactly the two new fields
`column_advantage_serial` and `column_advantage_parallel` and nothing else. -/
theorem spec_c10_frame (rows rows' : List Row)
    (hk : ∀ r ∈ rows, "column_advantage_serial" ∉ rowKeys r ∧
      "column_advantage_parallel" ∉ rowKeys r)
    (hrun : add_derived_population_metrics rows = .ok rows') :
    rows'.length = rows.length ∧ List.Forall₂ rowFrame rows rows' := by
  induction rows generalizing rows' with
  | nil =>
    unfold add_derived_population_metrics at hrun
    obtain rfl := (Except.ok.inj hrun)
    exact ⟨rfl, List.Forall₂.nil⟩
  | cons r rs ih =>
    unfold add_derived_population_metrics at hrun
    cases h1 : addDerivedRow r with
    | error e => simp [h1] at hrun
    | ok r' =>
      simp only [h1] at hrun
      cases h2 : add_derived_population_metrics rs with
      | error e => simp [h2] at hrun
      | ok rs' =>
        simp only [h2] at hrun
        obtain rfl := (Except.ok.inj hrun)
        have hr := addDerivedRow_frame r r' (hk r (by simp)).1 (hk r (by simp)).2 h1
        have hrs := ih rs' (fun x hx => hk x (List.mem_cons_of_mem _ hx)) h2
        exact ⟨by simp [hrs.1], List.Forall₂.cons hr hrs.2⟩

/-- Witness for `spec_c10_frame` on a concrete one-row table. -/
theorem spec_c10_frame_witness :
    [frameRowD].length = [frameRow].length ∧ List.Forall₂ rowFrame [frameRow] [frameRowD] :=
  spec_c10_frame [frameRow] [frameRowD]
    (by with_unfolding_all decide) (by with_unfolding_all decide)

/-- C9 : in every row of the hardcoded `FIRE_DATA` table the stored
`efficiency` equals the stored `speedup` divided by the thread count. -/
theorem spec_c9_efficiency (r : FireResult) (h : r ∈ FIRE_DATA) :
    r.efficiency = r.speedup / (r.threads : ℚ) := by
  have hall : ∀ x ∈ FIRE_DATA, decide (x.efficiency = x.speedup / (x.threads : ℚ)) = true := by
    with_unfolding_all decide
  exact of_decide_eq_true (hall r h)

/-- Witness for `spec_c9_efficiency` at the two-thread Row entry. -/
theorem spec_c9_efficiency_witness :
    (FireResult.mk "Row" 2 1.328 1.57 (1.57 / 2) 388.4).efficiency
      = (FireResult.mk "Row" 2 1.328 1.57 (1.57 / 2) 388.4).speedup
        / ((FireResult.mk "Row" 2 1.328 1.57 (1.57 / 2) 388.4).threads : ℚ) :=
  spec_c9_efficiency _ (by with_unfolding_all decide)

/-- C5 : exporting the fixed ten-row `FIRE_DATA` table to CSV yields the
header `model,threads,time_s,speedup,efficiency,files_per_sec` as its first
record and `Row,1,2.079,1.00,1.0000,248.2` as its second. -/
theorem spec_c5_fire_csv :
    FIRE_DATA.length = 10 ∧
    (fireCsvLines FIRE_DATA).get? 0 = some "model,threads,time_s,speedup,efficiency,files_per_sec" ∧
    (fireCsvLines FIRE_DATA).get? 1 = some "Row,1,2.079,1.00,1.0000,248.2" := by
  refine ⟨?_, ?_, ?_⟩ <;> with_unfolding_all decide

/-- C4 fails as stated: the fire Markdown table's second line is a plain
dash row; its cells (here the numeric `Threads` column) do not end in an
alignment colon. -/
theorem spec_c4_counterexample :
    (fireMdLines FIRE_DATA).get? 1
      = some "|-------|---------|----------|---------|------------|-----------|" ∧
    ((((fireMdLines FIRE_DATA).getD 1 "").splitOn "|").getD 2 "").endsWith ":" = false := by
  constructor <;> with_unfolding_all decide

/-- C4 (amended) : the population Markdown export's second line right-aligns
every numeric column (each numeric cell of the alignment row ends in a
colon, the textual `Operation` column does not), while the fire Markdown
export's second line is a plain dash row with no alignment colons; in both
exports efficiency is rendered as `value*100` with one decimal and a
trailing `%` and ratio values carry an `x` suffix, as the concrete third
lines show. -/
theorem spec_c4_amended :
    (popMdFullLines POPULATION_ROWS).map (fun ls => ls.get? 1) = .ok (some popMdAlign) ∧
    (((popMdAlign.splitOn "|").drop 2).dropLast).all (fun c => c.endsWith ":") = true ∧
    ((popMdAlign.splitOn "|").getD 1 "").endsWith ":" = false ∧
    (fireMdLines FIRE_DATA).get? 1 = some fireMdAlign ∧
    fireMdAlign.any (fun c => c == ':') = false ∧
    (fireMdLines FIRE_DATA).get? 2 = some "| Row | 1 | 2.079 | 1.00x | 100.0% | 248.2 |" ∧
    (popMdFullLines POPULATION_ROWS).map (fun ls => ls.get? 2)
      = .ok (some "| Sum | 1.992 | 163.750 | 0.534 | 36.592 | 3.73x | 4.48x |") := by
  refine ⟨?_, ?_, ?_, ?_, ?_, ?_, ?_⟩ <;> with_unfolding_all decide

/-- C3 fails as stated: on a population table whose derived
`column_advantage_serial` is absent, both the CSV export (line 99 formats it
unconditionally) and the Markdown export (line 117) raise `TypeError`
instead of rendering a dash. -/
theorem spec_c3_counterexample :
    popCsvFull tableZeroColSerial = .error PyErr.typeError ∧
    popMdFull tableZeroColSerial = .error PyErr.typeError := by
  constructor <;> with_unfolding_all decide

/-- C3 (amended) : only the CSV export's `column_advantage_parallel` column
renders an absent ratio as the literal dash `"-"`; an absent
`column_advantage_serial` makes the CSV export raise `TypeError`, and the
Markdown export raises `TypeError` for an absent ratio in either column.
On tables where both ratios are numeric — in particular the program's own
population table — both exports complete without error. -/
theorem spec_c3_amended :
    (∀ (op : String) (rs rp cs cp a : ℚ),
      ∃ c1 c2 c3 c4 c5 c6, popCsvRow (mkRowD op rs rp cs cp (.num a) PyVal.none)
        = .ok (joinCells "," [c1, c2, c3, c4, c5, c6, "-"])) ∧
    (∀ (op : String) (rs rp cs cp a : ℚ),
      popCsvRow (mkRowD op rs rp cs cp PyVal.none (.num a)) = .error PyErr.typeError) ∧
    (∀ (op : String) (rs rp cs cp a : ℚ),
      popMdRow (mkRowD op rs rp cs cp (.num a) PyVal.none) = .error PyErr.typeError) ∧
    (∀ (op : String) (rs rp cs cp a : ℚ),
      popMdRow (mkRowD op rs rp cs cp PyVal.none (.num a)) = .error PyErr.typeError) ∧
    population_results_csv.isOk = true ∧ population_results_md.isOk = true := by
  have hq : csvQuote "-" = "-" := by with_unfolding_all decide
  refine ⟨?_, ?_, ?_, ?_, ?_, ?_⟩
  · intro op rs rp cs cp a
    refine ⟨csvQuote op, csvQuote (formatFixed rs 3), csvQuote (formatFixed rp 3),
      csvQuote (formatFixed cs 3), csvQuote (formatFixed cp 3),
      csvQuote (formatFixed a 2 ++ "x"), ?_⟩
    simp [popCsvRow, popCsvCells, mkRowD, fmtCell, getItem, pyFormat, pyCellStr, seqCells,
      Except.map, hq]
  · intro op rs rp cs cp a
    simp [popCsvRow, popCsvCells, mkRowD, fmtCell, getItem, pyFormat, pyCellStr, seqCells,
      Except.map]
  · intro op rs rp cs cp a
    simp [popMdRow, popMdCells, mkRowD, fmtCell, getItem, pyFormat, pyFStr, seqCells,
      Except.map]
  · intro op rs rp cs cp a
    simp [popMdRow, popMdCells, mkRowD, fmtCell, getItem, pyFormat, pyFStr, seqCells,
      Except.map]
  · with_unfolding_all decide
  · with_unfolding_all decide

/-- C6 : the JSON bundle holds exactly a `fire` array of length 10, a
`population` array of length 7 whose every entry carries the raw plus
derived fields, and a `metadata` object with the dataset-size objects for
both datasets. -/
theorem spec_c6_json_bundle :
    benchmarks_json.toOption.bind Json.keyList = some ["fire", "population", "metadata"] ∧
    (benchmarks_json.toOption.bind (fun j => j.lookupKey "fire")).bind Json.arrLen = some 10 ∧
    (benchmarks_json.toOption.bind (fun j => j.lookupKey "population")).bind Json.arrLen
      = some 7 ∧
    (benchmarks_json.toOption.bind (fun j => j.lookupKey "population")).map
      (fun p => p.arrAll (fun e => e.keyList == some popAllKeys)) = some true ∧
    ((benchmarks_json.toOption.bind (fun j => j.lookupKey "metadata")).bind
      (fun m => m.lookupKey "fire_dataset")).bind Json.keyList
      = some ["files", "measurements", "sites"] ∧
    ((benchmarks_json.toOption.bind (fun j => j.lookupKey "metadata")).bind
      (fun m => m.lookupKey "population_dataset")).bind Json.keyList
      = some ["countries", "years"] := by
  refine ⟨?_, ?_, ?_, ?_, ?_, ?_⟩ <;> with_unfolding_all decide

/-- C7 : the export pipeline is a pure function of the input tables and the
output directory, so two runs on identical inputs produce identical CSV,
Markdown and JSON artifacts, byte for byte. -/
theorem spec_c7_determinism (dir1 dir2 : String) (fire1 fire2 : List FireResult)
    (rows1 rows2 : List Row)
    (hd : dir1 = dir2) (hf : fire1 = fire2) (hr : rows1 = rows2) :
    pipelineOutputs dir1 fire1 rows1 = pipelineOutputs dir2 fire2 rows2 := by
  subst hd; subst hf; subst hr; rfl

/-- Witness for `spec_c7_determinism` on the program's own inputs. -/
theorem spec_c7_determinism_witness :
    pipelineOutputs "bench_artifacts" FIRE_DATA POPULATION_ROWS
      = pipelineOutputs "bench_artifacts" FIRE_DATA POPULATION_ROWS :=
  spec_c7_determinism _ _ _ _ _ _ rfl rfl rfl

/-- C8 : the output directory is the value of `BENCH_EXPORT_DIR` when set,
`bench_artifacts` otherwise, and `os.makedirs(..., exist_ok=True)` (line 33,
before any export) creates every leading component of that path, so a
nonexistent nested override is created rather than failing. -/
theorem spec_c8_artifact_dir (env : String → Option String) (fs : List (List String)) (k : Nat)
    (hk : k < (pathComponents (ARTIFACT_DIR env)).length) :
    (env "BENCH_EXPORT_DIR" = Option.none → ARTIFACT_DIR env = "bench_artifacts") ∧
    (∀ s, env "BENCH_EXPORT_DIR" = some s → ARTIFACT_DIR env = s) ∧
    (pathComponents (ARTIFACT_DIR env)).take (k + 1)
      ∈ makedirs fs (pathComponents (ARTIFACT_DIR env)) := by
  refine ⟨?_, ?_, ?_⟩
  · intro h; simp [ARTIFACT_DIR, h]
  · intro s h; simp [ARTIFACT_DIR, h]
  · unfold makedirs
    exact List.mem_append_right _ (List.mem_map.mpr ⟨k, List.mem_range.mpr hk, rfl⟩)

/-- Witness for `spec_c8_artifact_dir`: with the override `a/b/c` and an
empty filesystem, the intermediate directory `a/b` is among the created
directories. -/
theorem spec_c8_artifact_dir_witness :
    (pathComponents (ARTIFACT_DIR nestedEnv)).take 2
      ∈ makedirs [] (pathComponents (ARTIFACT_DIR nestedEnv)) :=
  (spec_c8_artifact_dir nestedEnv [] 1 (by with_unfolding_all decide)).2.2

end BenchAssets
